import Mathlib

/-!
Verification of the core of the WebsiteStatusChecker backend (`app.py`):
URL normalization (`format_url`), per-domain probing with error
classification (`check_website_status`), status-to-message mapping
(`get_status_message`), and batch aggregation (`check_bulk_domains`).

The HTTP request performed by `requests.get` is modelled by an injected
function `probe : String → HttpOutcome` giving, for each requested URL,
either a response (status code and elapsed seconds) or one of the
exception classes the code catches.  Timestamps are passed in as a
string parameter.  Python strings are modelled by Lean `String`
(sequences of code points), with Python's `str.strip`, `str.startswith`
and slicing `[:n]` embedded as executable functions over `String.data`.
-/

/-- Python `s.strip()`: remove leading and trailing whitespace
(modelled with `Char.isWhitespace`, covering space, tab, CR, LF). -/
def pyStrip (s : String) : String :=
  ⟨((s.data.dropWhile Char.isWhitespace).reverse.dropWhile Char.isWhitespace).reverse⟩

/-- Python `s.startswith(p)` for a single string argument `p`. -/
def pyStartsWith (s p : String) : Bool :=
  p.data.isPrefixOf s.data

/-- Python slicing `s[:n]`: the first `n` characters of `s`. -/
def pyTake (s : String) (n : Nat) : String :=
  ⟨s.data.take n⟩

/-- `format_url` from `app.py`: prefix `https://` unless the string
already starts with `http://` or `https://`. -/
def format_url (domain : String) : String :=
  if ¬ (pyStartsWith domain "http://" || pyStartsWith domain "https://") then
    "https://" ++ domain
  else
    domain

/-- The fixed `messages` dictionary of `get_status_message` in `app.py`. -/
def messages (c : Int) : Option String :=
  if c = 200 then some "✅ Site is Live"
  else if c = 201 then some "✅ Created"
  else if c = 204 then some "✅ No Content"
  else if c = 301 then some "↗️ Moved Permanently"
  else if c = 302 then some "↗️ Found (Redirect)"
  else if c = 304 then some "📋 Not Modified"
  else if c = 400 then some "❌ Bad Request"
  else if c = 401 then some "🔒 Unauthorized"
  else if c = 403 then some "🔒 Access Forbidden"
  else if c = 404 then some "❌ 404 Not Found"
  else if c = 405 then some "❌ Method Not Allowed"
  else if c = 408 then some "⏱️ Request Timeout"
  else if c = 429 then some "⚠️ Too Many Requests"
  else if c = 500 then some "⚠️ Internal Server Error"
  else if c = 502 then some "⚠️ Bad Gateway"
  else if c = 503 then some "⚠️ Service Unavailable"
  else if c = 504 then some "⚠️ Gateway Timeout"
  else none

/-- `get_status_message` from `app.py`: exact-match table first, then
range-based fallback. -/
def get_status_message (status_code : Int) : String :=
  match messages status_code with
  | some m => m
  | none =>
    if 200 ≤ status_code ∧ status_code < 300 then "✅ Success"
    else if 300 ≤ status_code ∧ status_code < 400 then "↗️ Redirect"
    else if 400 ≤ status_code ∧ status_code < 500 then "❌ Client Error"
    else if 500 ≤ status_code ∧ status_code < 600 then "⚠️ Server Error"
    else "❓ Unknown Status"

/-- The `status` field of a check result: either a numeric HTTP status
code (a Python `int`) or one of the sentinel strings used by
`check_website_status`. -/
inductive Status where
  | code (n : Int)
  | TIMEOUT
  | CONNECTION_ERROR
  | ERROR
deriving Repr, DecidableEq

/-- Python `isinstance(status, int)`. -/
def Status.isInt : Status → Bool
  | .code _ => true
  | _ => false

/-- The result dictionary built by `check_website_status` in `app.py`.
`response_time` models `response.elapsed.total_seconds()` as an
optional rational number of seconds. -/
structure CheckResult where
  domain : String
  status : Status
  message : String
  timestamp : String
  response_time : Option ℚ
deriving Repr, DecidableEq

/-- Outcome of `requests.get` on a URL: a response, or one of the
exception classes caught by `check_website_status`
(`requests.exceptions.Timeout`, `requests.exceptions.ConnectionError`,
or any other `Exception` carrying a description string). -/
inductive HttpOutcome where
  | ok (status_code : Int) (elapsed : ℚ)
  | timeout
  | connectionError
  | otherError (description : String)
deriving Repr, DecidableEq

/-- `check_website_status` from `app.py`: normalize the URL, issue the
request (modelled by `probe` applied to the formatted URL), and convert
every outcome — response or exception — into a result dictionary. -/
def check_website_status (url : String) (probe : String → HttpOutcome)
    (ts : String) : CheckResult :=
  let formatted_url := format_url url
  match probe formatted_url with
  | .ok status_code elapsed =>
    { domain := url
      status := .code status_code
      message := get_status_message status_code
      timestamp := ts
      response_time := some elapsed }
  | .timeout =>
    { domain := url
      status := .TIMEOUT
      message := "⏱️ Request Timeout"
      timestamp := ts
      response_time := none }
  | .connectionError =>
    { domain := url
      status := .CONNECTION_ERROR
      message := "❌ Connection Failed"
      timestamp := ts
      response_time := none }
  | .otherError e =>
    { domain := url
      status := .ERROR
      message := "❌ Error: " ++ pyTake e 50
      timestamp := ts
      response_time := none }

/-- The `summary` dictionary computed by `check_bulk_domains`. -/
structure Summary where
  total : Nat
  active : Nat
  inactive : Nat
  errors : Nat
  redirects : Nat
deriving Repr, DecidableEq

/-- `summary` computation of `check_bulk_domains` in `app.py`: each
count is `sum(1 for r in results if …)` over the given predicate. -/
def compute_summary (results : List CheckResult) : Summary :=
  { total := results.length
    active := results.countP
      (fun r => r.status.isInt && match r.status with
        | .code n => decide (200 ≤ n) && decide (n < 300) | _ => false)
    inactive := results.countP
      (fun r => r.status.isInt && match r.status with
        | .code n => decide (400 ≤ n) && decide (n < 500) | _ => false)
    errors := results.countP
      (fun r => !r.status.isInt || match r.status with
        | .code n => decide (500 ≤ n) | _ => false)
    redirects := results.countP
      (fun r => r.status.isInt && match r.status with
        | .code n => decide (300 ≤ n) && decide (n < 400) | _ => false) }

/-- Response of an endpoint returning a JSON body, possibly with an
HTTP error status (`jsonify({'error': …}), 400`). -/
inductive BulkResponse where
  | error (msg : String) (httpCode : Nat)
  | ok (results : List CheckResult) (summary : Summary)
deriving Repr, DecidableEq

/-- The probing loop of `check_bulk_domains`: for each entry, if the
stripped entry is non-empty (Python truthiness of `domain.strip()`),
probe the stripped entry and append the result. -/
def process_domains (domains : List String) (probe : String → HttpOutcome)
    (ts : String) : List CheckResult :=
  domains.foldl
    (fun acc d =>
      if pyStrip d ≠ "" then acc ++ [check_website_status (pyStrip d) probe ts]
      else acc)
    []

/-- `check_bulk_domains` from `app.py`, after JSON-body validation has
produced a list of strings: reject empty and oversized batches, then
probe each non-blank entry and compute the summary. -/
def check_bulk_domains (domains : List String) (probe : String → HttpOutcome)
    (ts : String) : BulkResponse :=
  if domains.length = 0 then .error "At least one domain is required" 400
  else if domains.length > 100 then .error "Maximum 100 domains allowed" 400
  else
    let results := process_domains domains probe ts
    .ok results (compute_summary results)

/-- Response of the single-domain endpoint. -/
inductive SingleResponse where
  | error (msg : String) (httpCode : Nat)
  | ok (result : CheckResult)
deriving Repr, DecidableEq

/-- `check_single_domain` from `app.py`, after JSON-body validation has
produced the `domain` field as a string: strip it, reject if empty,
otherwise probe the stripped string. -/
def check_single_domain (domain : String) (probe : String → HttpOutcome)
    (ts : String) : SingleResponse :=
  let d := pyStrip domain
  if d = "" then .error "Domain cannot be empty" 400
  else .ok (check_website_status d probe ts)

/-- A five-result batch exercising the summary partition: statuses
200, 404, 301, 500 and TIMEOUT, as produced by the prober itself. -/
def exampleResults : List CheckResult :=
  [check_website_status "a" (fun _ => .ok 200 1) "t",
   check_website_status "b" (fun _ => .ok 404 1) "t",
   check_website_status "c" (fun _ => .ok 301 1) "t",
   check_website_status "d" (fun _ => .ok 500 1) "t",
   check_website_status "e" (fun _ => .timeout) "t"]

/-- A single-result batch whose status code 100 falls in none of the
four summary buckets. -/
def lowCodeResults : List CheckResult :=
  [check_website_status "x" (fun _ => .ok 100 1) "t"]

/-- C1: for every input string, `check_website_status` returns a
`CheckResult` (it is a total function, so no exception reaches its
caller): a request timeout yields status `TIMEOUT`, a connection
failure yields status `CONNECTION_ERROR`, and any other failure yields
status `ERROR` with a message embedding at most the first 50 characters
of the failure description; in all three failure cases `response_time`
is `none`. -/
theorem check_website_status_failure_paths (url : String)
    (probe : String → HttpOutcome) (ts : String) :
    (probe (format_url url) = .timeout →
      check_website_status url probe ts =
        { domain := url, status := .TIMEOUT, message := "⏱️ Request Timeout",
          timestamp := ts, response_time := none }) ∧
    (probe (format_url url) = .connectionError →
      check_website_status url probe ts =
        { domain := url, status := .CONNECTION_ERROR, message := "❌ Connection Failed",
          timestamp := ts, response_time := none }) ∧
    (∀ e, probe (format_url url) = .otherError e →
      check_website_status url probe ts =
        { domain := url, status := .ERROR, message := "❌ Error: " ++ pyTake e 50,
          timestamp := ts, response_time := none } ∧
      (pyTake e 50).length ≤ 50) := by
  refine ⟨fun h => ?_, fun h => ?_, fun e h => ⟨?_, ?_⟩⟩
  · simp [check_website_status, h]
  · simp [check_website_status, h]
  · simp [check_website_status, h]
  · show (e.data.take 50).length ≤ 50
    rw [List.length_take]
    omega

/-- Witness for C1 at concrete probes. -/
theorem check_website_status_failure_paths_witness :
    check_website_status "x" (fun _ => .timeout) "t" =
      { domain := "x", status := .TIMEOUT, message := "⏱️ Request Timeout",
        timestamp := "t", response_time := none } ∧
    check_website_status "x" (fun _ => .connectionError) "t" =
      { domain := "x", status := .CONNECTION_ERROR, message := "❌ Connection Failed",
        timestamp := "t", response_time := none } ∧
    (check_website_status "x" (fun _ => .otherError "boom") "t" =
      { domain := "x", status := .ERROR, message := "❌ Error: " ++ pyTake "boom" 50,
        timestamp := "t", response_time := none } ∧
      (pyTake "boom" 50).length ≤ 50) :=
  ⟨(check_website_status_failure_paths "x" (fun _ => .timeout) "t").1 rfl,
   (check_website_status_failure_paths "x" (fun _ => .connectionError) "t").2.1 rfl,
   (check_website_status_failure_paths "x" (fun _ => .otherError "boom") "t").2.2 "boom" rfl⟩

/-- C5: for every input string, `format_url` returns the string
unchanged if it starts with the exact prefix `http://` or `https://`,
and otherwise returns it prefixed with `https://`; it is a total (pure,
never-failing) function. -/
theorem format_url_spec (s : String) :
    ((pyStartsWith s "http://" = true ∨ pyStartsWith s "https://" = true) →
      format_url s = s) ∧
    (pyStartsWith s "http://" = false → pyStartsWith s "https://" = false →
      format_url s = "https://" ++ s) := by
  constructor
  · intro h
    rcases h with h | h <;> simp [format_url, h]
  · intro h1 h2
    simp [format_url, h1, h2]

/-- Witness for C5 at the spec's three example inputs. -/
theorem format_url_spec_witness :
    format_url "http://example.com" = "http://example.com" ∧
    format_url "https://x.com" = "https://x.com" ∧
    format_url "example.com" = "https://" ++ "example.com" :=
  ⟨(format_url_spec "http://example.com").1 (Or.inl (by decide)),
   (format_url_spec "https://x.com").1 (Or.inr (by decide)),
   (format_url_spec "example.com").2 (by decide) (by decide)⟩

/-- C3: `get_status_message` first consults the fixed table, so any
code in the table (such as 408) gets its curated message, and any code
not in the table falls back strictly by range: [200,300) to Success,
[300,400) to Redirect, [400,500) to Client Error, [500,600) to Server
Error, anything else to Unknown Status; in particular 408 maps to the
Request Timeout message, 299 to Success-class, 599 to Server
Error-class and 999 to Unknown. -/
theorem get_status_message_precedence :
    (∀ c m, messages c = some m → get_status_message c = m) ∧
    (∀ c, messages c = none → 200 ≤ c → c < 300 →
      get_status_message c = "✅ Success") ∧
    (∀ c, messages c = none → 300 ≤ c → c < 400 →
      get_status_message c = "↗️ Redirect") ∧
    (∀ c, messages c = none → 400 ≤ c → c < 500 →
      get_status_message c = "❌ Client Error") ∧
    (∀ c, messages c = none → 500 ≤ c → c < 600 →
      get_status_message c = "⚠️ Server Error") ∧
    (∀ c, messages c = none → (c < 200 ∨ 600 ≤ c) →
      get_status_message c = "❓ Unknown Status") ∧
    get_status_message 408 = "⏱️ Request Timeout" ∧
    get_status_message 299 = "✅ Success" ∧
    get_status_message 599 = "⚠️ Server Error" ∧
    get_status_message 999 = "❓ Unknown Status" := by
  refine ⟨fun c m h => ?_, fun c h h1 h2 => ?_, fun c h h1 h2 => ?_,
    fun c h h1 h2 => ?_, fun c h h1 h2 => ?_, fun c h h1 => ?_,
    by decide, by decide, by decide, by decide⟩
  · unfold get_status_message
    rw [h]
  · unfold get_status_message
    rw [h]
    exact if_pos ⟨h1, h2⟩
  · unfold get_status_message
    rw [h, if_neg (by omega), if_pos ⟨h1, h2⟩]
  · unfold get_status_message
    rw [h, if_neg (by omega), if_neg (by omega), if_pos ⟨h1, h2⟩]
  · unfold get_status_message
    rw [h, if_neg (by omega), if_neg (by omega), if_neg (by omega),
      if_pos ⟨h1, h2⟩]
  · unfold get_status_message
    rw [h, if_neg (by omega), if_neg (by omega), if_neg (by omega),
      if_neg (by omega)]

/-- Witness for C3, exercising the table branch and each range
branch at a concrete code. -/
theorem get_status_message_precedence_witness :
    get_status_message 404 = "❌ 404 Not Found" ∧
    get_status_message 250 = "✅ Success" ∧
    get_status_message 399 = "↗️ Redirect" ∧
    get_status_message 450 = "❌ Client Error" ∧
    get_status_message 550 = "⚠️ Server Error" ∧
    get_status_message 150 = "❓ Unknown Status" :=
  ⟨get_status_message_precedence.1 404 "❌ 404 Not Found" (by decide),
   get_status_message_precedence.2.1 250 (by decide) (by decide) (by decide),
   get_status_message_precedence.2.2.1 399 (by decide) (by decide) (by decide),
   get_status_message_precedence.2.2.2.1 450 (by decide) (by decide) (by decide),
   get_status_message_precedence.2.2.2.2.1 550 (by decide) (by decide) (by decide),
   get_status_message_precedence.2.2.2.2.2.1 150 (by decide) (Or.inl (by decide))⟩

/-- C2: the batch summary counts each result by the literal partition
rules — `total` is the number of results, `active` counts numeric
statuses in [200,300), `redirects` in [300,400), `inactive` in
[400,500), and `errors` counts non-numeric statuses together with
numeric statuses ≥ 500; on the statuses [200, 404, 301, 500, TIMEOUT]
this gives total 5, active 1, inactive 1, redirects 1, errors 2. -/
theorem compute_summary_partition (results : List CheckResult) :
    (compute_summary results).total = results.length ∧
    (compute_summary results).active =
      (results.filter (fun r => match r.status with
        | .code n => decide (200 ≤ n ∧ n < 300) | _ => false)).length ∧
    (compute_summary results).redirects =
      (results.filter (fun r => match r.status with
        | .code n => decide (300 ≤ n ∧ n < 400) | _ => false)).length ∧
    (compute_summary results).inactive =
      (results.filter (fun r => match r.status with
        | .code n => decide (400 ≤ n ∧ n < 500) | _ => false)).length ∧
    (compute_summary results).errors =
      (results.filter (fun r => match r.status with
        | .code n => decide (500 ≤ n) | _ => true)).length ∧
    compute_summary exampleResults =
      { total := 5, active := 1, inactive := 1, errors := 2, redirects := 1 } := by
  refine ⟨rfl, ?_, ?_, ?_, ?_, by decide⟩ <;>
    · show List.countP _ results = _
      rw [List.countP_eq_length_filter]
      congr 1
      apply List.filter_congr
      intro r _
      cases hs : r.status <;> simp [Status.isInt, hs, Bool.decide_and]

/-- C4: the batch aggregator rejects empty batches and batches of more
than 100 entries with an error — and does so without probing, since the
rejection is independent of the probe function — while a batch of
exactly 100 entries is accepted. -/
theorem check_bulk_domains_size_gate (domains : List String)
    (probe probe2 : String → HttpOutcome) (ts : String) :
    (domains.length = 0 →
      check_bulk_domains domains probe ts =
        .error "At least one domain is required" 400) ∧
    (domains.length > 100 →
      check_bulk_domains domains probe ts =
        .error "Maximum 100 domains allowed" 400) ∧
    (domains.length = 0 ∨ domains.length > 100 →
      check_bulk_domains domains probe ts = check_bulk_domains domains probe2 ts) ∧
    (domains.length = 100 →
      ∃ rs s, check_bulk_domains domains probe ts = .ok rs s) := by
  refine ⟨fun h => ?_, fun h => ?_, fun h => ?_, fun h => ?_⟩
  · simp [check_bulk_domains, h]
  · unfold check_bulk_domains
    rw [if_neg (by omega), if_pos h]
  · rcases h with h | h
    · simp [check_bulk_domains, h]
    · unfold check_bulk_domains
      rw [if_neg (by omega), if_pos h, if_neg (by omega), if_pos h]
  · unfold check_bulk_domains
    rw [if_neg (by omega), if_neg (by omega)]
    exact ⟨_, _, rfl⟩

/-- Witness for C4 at batches of size 0, 101 and 100. -/
theorem check_bulk_domains_size_gate_witness :
    check_bulk_domains [] (fun _ => .timeout) "t" =
      .error "At least one domain is required" 400 ∧
    check_bulk_domains (List.replicate 101 "d") (fun _ => .timeout) "t" =
      .error "Maximum 100 domains allowed" 400 ∧
    (∃ rs s, check_bulk_domains (List.replicate 100 "d") (fun _ => .timeout) "t" =
      .ok rs s) :=
  ⟨(check_bulk_domains_size_gate [] (fun _ => .timeout) (fun _ => .timeout) "t").1 rfl,
   (check_bulk_domains_size_gate (List.replicate 101 "d") (fun _ => .timeout)
      (fun _ => .timeout) "t").2.1 (by simp),
   (check_bulk_domains_size_gate (List.replicate 100 "d") (fun _ => .timeout)
      (fun _ => .timeout) "t").2.2.2 (by simp)⟩

/-- The probing loop with an arbitrary starting accumulator: it appends
one result per entry whose stripped form is non-empty, preserving
order. -/
theorem process_domains_go (domains : List String)
    (probe : String → HttpOutcome) (ts : String) (acc : List CheckResult) :
    domains.foldl
      (fun acc d =>
        if pyStrip d ≠ "" then acc ++ [check_website_status (pyStrip d) probe ts]
        else acc)
      acc =
    acc ++ (domains.filter (fun d => !(pyStrip d == ""))).map
      (fun d => check_website_status (pyStrip d) probe ts) := by
  induction domains generalizing acc with
  | nil => simp
  | cons d ds ih =>
    by_cases h : pyStrip d = ""
    · rw [List.foldl_cons, if_neg (fun hn => hn h), ih]
      simp [List.filter_cons, h]
    · rw [List.foldl_cons, if_pos h, ih]
      simp [List.filter_cons, h]

/-- The probing loop equals a filter of non-blank entries followed by a
map of the prober over the stripped entries. -/
theorem process_domains_eq (domains : List String)
    (probe : String → HttpOutcome) (ts : String) :
    process_domains domains probe ts =
      (domains.filter (fun d => !(pyStrip d == ""))).map
        (fun d => check_website_status (pyStrip d) probe ts) := by
  unfold process_domains
  rw [process_domains_go]
  simp

/-- C6: in an accepted bulk request, blank or whitespace-only entries
are silently skipped, and the results sequence holds exactly one
`CheckResult` per remaining entry, in the input order. -/
theorem check_bulk_domains_filters_blanks (domains : List String)
    (probe : String → HttpOutcome) (ts : String) (rs : List CheckResult)
    (s : Summary)
    (hok : check_bulk_domains domains probe ts = .ok rs s) :
    rs = (domains.filter (fun d => !(pyStrip d == ""))).map
      (fun d => check_website_status (pyStrip d) probe ts) := by
  unfold check_bulk_domains at hok
  split at hok
  · exact absurd hok (by simp)
  · split at hok
    · exact absurd hok (by simp)
    · rw [BulkResponse.ok.injEq] at hok
      rw [← hok.1]
      exact process_domains_eq domains probe ts

/-- Witness for C6 on a batch with a blank middle entry. -/
theorem check_bulk_domains_filters_blanks_witness :
    [check_website_status "a" (fun _ => .timeout) "t",
     check_website_status "b" (fun _ => .timeout) "t"] =
      ((["a", " ", "b"].filter (fun d => !(pyStrip d == ""))).map
        (fun d => check_website_status (pyStrip d) (fun _ => .timeout) "t")) :=
  check_bulk_domains_filters_blanks ["a", " ", "b"] (fun _ => .timeout) "t"
    [check_website_status "a" (fun _ => .timeout) "t",
     check_website_status "b" (fun _ => .timeout) "t"]
    (compute_summary
      [check_website_status "a" (fun _ => .timeout) "t",
       check_website_status "b" (fun _ => .timeout) "t"])
    (by rfl)

/-- C7: a check result's `response_time` is present exactly when its
status is a numeric code; it then equals the elapsed time of the real
response, and every sentinel-status result carries `response_time =
none`. -/
theorem check_website_status_response_time_iff (url : String)
    (probe : String → HttpOutcome) (ts : String) :
    ((check_website_status url probe ts).response_time.isSome = true ↔
      (check_website_status url probe ts).status.isInt = true) ∧
    (∀ n q, probe (format_url url) = .ok n q →
      (check_website_status url probe ts).response_time = some q) ∧
    ((check_website_status url probe ts).status.isInt = false →
      (check_website_status url probe ts).response_time = none) := by
  cases h : probe (format_url url) <;>
    simp [check_website_status, h, Status.isInt]

/-- Witness for C7: elapsed time surfaces on a response, and a
sentinel-status result has no response time. -/
theorem check_website_status_response_time_iff_witness :
    (check_website_status "x" (fun _ => .ok 200 1) "t").response_time = some 1 ∧
    (check_website_status "x" (fun _ => .timeout) "t").response_time = none :=
  ⟨(check_website_status_response_time_iff "x" (fun _ => .ok 200 1) "t").2.1
      200 1 rfl,
   (check_website_status_response_time_iff "x" (fun _ => .timeout) "t").2.2 rfl⟩

/-- C9: the four summary counts need not sum to `total`: on a result
whose status code is 100, every bucket is 0 while `total` is 1, because
the aggregator applies the literal partition rules with no special case
for codes below 200. -/
theorem compute_summary_not_a_partition :
    (compute_summary lowCodeResults).active +
        (compute_summary lowCodeResults).redirects +
        (compute_summary lowCodeResults).inactive +
        (compute_summary lowCodeResults).errors
      < (compute_summary lowCodeResults).total := by
  decide

/-- C10: a non-empty batch within the 100-entry cap consisting only of
blank or whitespace-only entries is not rejected: it yields an empty
results sequence and an all-zero summary. -/
theorem check_bulk_domains_all_blank (domains : List String)
    (probe : String → HttpOutcome) (ts : String)
    (hne : domains ≠ []) (hle : domains.length ≤ 100)
    (hblank : ∀ d ∈ domains, pyStrip d = "") :
    check_bulk_domains domains probe ts =
      .ok [] { total := 0, active := 0, inactive := 0, errors := 0,
               redirects := 0 } := by
  have hlen : domains.length ≠ 0 := by
    have := List.length_pos.mpr hne
    omega
  unfold check_bulk_domains
  rw [if_neg hlen, if_neg (by omega)]
  have hres : process_domains domains probe ts = [] := by
    rw [process_domains_eq]
    have : domains.filter (fun d => !(pyStrip d == "")) = [] := by
      rw [List.filter_eq_nil_iff]
      intro d hd
      simp [hblank d hd]
    rw [this, List.map_nil]
  rw [hres]
  rfl

/-- Witness for C10 on a two-entry all-blank batch. -/
theorem check_bulk_domains_all_blank_witness :
    check_bulk_domains [" ", ""] (fun _ => .timeout) "t" =
      .ok [] { total := 0, active := 0, inactive := 0, errors := 0,
               redirects := 0 } :=
  check_bulk_domains_all_blank [" ", ""] (fun _ => .timeout) "t"
    (by decide) (by decide) (by decide)

/-- The prober echoes its `url` argument unchanged into the `domain`
field, whatever the outcome. -/
theorem check_website_status_domain (url : String)
    (probe : String → HttpOutcome) (ts : String) :
    (check_website_status url probe ts).domain = url := by
  cases h : probe (format_url url) <;> simp [check_website_status, h]

/-- C8 counterexample: the single-domain endpoint strips the caller's
string before probing, so on the input `" example.com"` the returned
`domain` field is `"example.com"`, which differs from the original
input. -/
theorem check_single_domain_domain_cex :
    check_single_domain " example.com" (fun _ => .timeout) "t" =
      .ok { domain := "example.com", status := .TIMEOUT,
            message := "⏱️ Request Timeout", timestamp := "t",
            response_time := none } ∧
    ("example.com" : String) ≠ " example.com" :=
  ⟨rfl, by decide⟩

/-- C8 (amended): the `domain` field equals the whitespace-stripped
input — the prober echoes its argument unchanged and never
URL-normalizes it, but both endpoints strip the caller's string before
probing, so the field equals the original input exactly when that input
has no surrounding whitespace. -/
theorem check_result_domain_spec (domain url : String)
    (probe : String → HttpOutcome) (ts : String) (r : CheckResult)
    (domains : List String) (rs : List CheckResult) (s : Summary) :
    ((check_website_status url probe ts).domain = url) ∧
    (check_single_domain domain probe ts = .ok r →
      r.domain = pyStrip domain) ∧
    (check_bulk_domains domains probe ts = .ok rs s →
      rs.map (fun x => x.domain) =
        (domains.filter (fun d => !(pyStrip d == ""))).map pyStrip) := by
  refine ⟨check_website_status_domain url probe ts, fun hok => ?_, fun hok => ?_⟩
  · have hok2 : (if pyStrip domain = "" then
        SingleResponse.error "Domain cannot be empty" 400
      else
        SingleResponse.ok (check_website_status (pyStrip domain) probe ts)) =
        SingleResponse.ok r := hok
    split at hok2
    · exact absurd hok2 (by simp)
    · rw [SingleResponse.ok.injEq] at hok2
      rw [← hok2]
      exact check_website_status_domain (pyStrip domain) probe ts
  · unfold check_bulk_domains at hok
    split at hok
    · exact absurd hok (by simp)
    · split at hok
      · exact absurd hok (by simp)
      · rw [BulkResponse.ok.injEq] at hok
        rw [← hok.1, process_domains_eq, List.map_map]
        apply List.map_congr_left
        intro d _
        exact check_website_status_domain (pyStrip d) probe ts

/-- Witness for the amended C8 on concrete single and bulk requests. -/
theorem check_result_domain_spec_witness :
    (check_website_status "u" (fun _ => .timeout) "t").domain = "u" ∧
    (CheckResult.mk "example.com" .TIMEOUT "⏱️ Request Timeout" "t"
      none).domain = pyStrip " example.com" ∧
    [check_website_status "a" (fun _ => .timeout) "t"].map
        (fun x => x.domain) =
      ([" a ", ""].filter (fun d => !(pyStrip d == ""))).map pyStrip :=
  ⟨(check_result_domain_spec " e" "u" (fun _ => .timeout) "t"
      (CheckResult.mk "e" .TIMEOUT "m" "t" none) [] []
      (compute_summary [])).1,
   (check_result_domain_spec " example.com" "u" (fun _ => .timeout) "t"
      (CheckResult.mk "example.com" .TIMEOUT "⏱️ Request Timeout" "t" none)
      [] [] (compute_summary [])).2.1 rfl,
   (check_result_domain_spec " e" "u" (fun _ => .timeout) "t"
      (CheckResult.mk "e" .TIMEOUT "m" "t" none) [" a ", ""]
      [check_website_status "a" (fun _ => .timeout) "t"]
      (compute_summary [check_website_status "a" (fun _ => .timeout) "t"])).2.2
      rfl⟩
